import Mathlib

/-!
Verification of the Printer_SNMP_Management central server's agent-facing
endpoints and of the field agent's collection/sync behaviour, as a shallow
embedding of the JavaScript source (Server/routes/agents.js,
Server/routes/data.js, Server/middleware/auth.js, Server/models/db.js).

Database rows are modelled as Lean structures; the PostgreSQL tables become
lists of rows inside a `ServerState`, with SERIAL counters carried
explicitly.  SQL NULL is `Option.none`; `NOW()` is an explicit `now : Nat`
parameter.  JavaScript falsiness on optional strings (undefined, null, "")
is modelled by `falsyStr`.
-/

namespace PrinterSNMP

/-- A row of the `agents` table (Server/models/db.js, CREATE TABLE agents). -/
structure AgentRow where
  id : Nat
  agent_id : String
  name : String
  hostname : Option String
  ip_address : Option String
  os_info : Option String
  version : Option String
  api_key : String
  status : String
  last_seen : Option Nat
  deriving Repr, DecidableEq

/-- A row of the `printers` table (Server/models/db.js, CREATE TABLE printers,
with UNIQUE(agent_id, ip_address)). -/
structure PrinterRow where
  id : Nat
  agent_id : Nat
  ip_address : String
  serial_number : Option String
  model : Option String
  name : Option String
  status : String
  last_seen : Option Nat
  deriving Repr, DecidableEq

/-- A row of the `metrics` table (Server/models/db.js, CREATE TABLE metrics). -/
structure MetricRow where
  id : Nat
  printer_id : Nat
  timestamp : String
  page_count : Option Int
  toner_levels : Option String
  status : Option String
  error_state : Option String
  raw_data : Option String
  deriving Repr, DecidableEq

/-- The server database: the three tables the agent-facing endpoints touch,
plus the SERIAL id counters. -/
structure ServerState where
  agents : List AgentRow
  printers : List PrinterRow
  metrics : List MetricRow
  nextAgentRowId : Nat
  nextPrinterId : Nat
  nextMetricId : Nat
  deriving Repr, DecidableEq

/-- JavaScript falsiness of an optional string field: `undefined`, `null`
and `""` are falsy (`!x` is true). -/
def falsyStr : Option String → Bool
  | none => true
  | some s => s == ""

/-- Body of POST /api/agents/register (Server/routes/agents.js line 37). -/
structure RegisterRequest where
  agent_id : Option String
  name : Option String
  hostname : Option String
  ip_address : Option String
  os_info : Option String
  version : Option String
  deriving Repr, DecidableEq

/-- Response of the register endpoint: `{success: true, token}` on the happy
path, `res.status(code).json({error})` otherwise. -/
inductive RegisterResponse where
  | ok (token : String)
  | err (status : Nat) (msg : String)
  deriving Repr, DecidableEq

/-- POST /api/agents/register (Server/routes/agents.js lines 35-84).
`freshKey` stands for the `uuidv4()` value `generateApiKey()` would mint if
the agent is new; `now` is the database clock `NOW()`.  If a row with the
given `agent_id` exists the stored `api_key` is returned and the row's
metadata refreshed; otherwise a new row is inserted carrying `freshKey`. -/
def registerAgent (st : ServerState) (req : RegisterRequest) (freshKey : String)
    (now : Nat) : ServerState × RegisterResponse :=
  match req.agent_id, req.name with
  | some aid, some nm =>
    if aid == "" || nm == "" then
      (st, .err 400 "Agent ID and name required")
    else
      match st.agents.find? (fun r => r.agent_id == aid) with
      | some row =>
        let agents := st.agents.map (fun r =>
          if r.agent_id == aid then
            { r with name := nm, hostname := req.hostname,
                     ip_address := req.ip_address, os_info := req.os_info,
                     version := req.version, last_seen := some now,
                     status := "active" }
          else r)
        ({ st with agents := agents }, .ok row.api_key)
      | none =>
        let row : AgentRow :=
          { id := st.nextAgentRowId, agent_id := aid, name := nm,
            hostname := req.hostname, ip_address := req.ip_address,
            os_info := req.os_info, version := req.version,
            api_key := freshKey, status := "active", last_seen := none }
        ({ st with agents := st.agents ++ [row],
                   nextAgentRowId := st.nextAgentRowId + 1 },
         .ok freshKey)
  | _, _ => (st, .err 400 "Agent ID and name required")

/-- Number of `agents` rows carrying a given `agent_id`. -/
def countAgentsWithId (st : ServerState) (aid : String) : Nat :=
  (st.agents.filter (fun r => r.agent_id == aid)).length

/-- The JavaScript `String.split(" ")` semantics on a character list: split
at every single space, keeping empty fields. -/
def splitFields : List Char → List (List Char)
  | [] => [[]]
  | c :: cs =>
    match splitFields cs with
    | [] => [[c]]
    | f :: rest => if c = ' ' then [] :: f :: rest else (c :: f) :: rest

/-- The middleware's `authHeader.split(" ")` (Server/middleware/auth.js
line 44). -/
def headerParts (h : String) : List String :=
  (splitFields h.toList).map (fun cs => String.mk cs)

/-- Token extraction of the middleware (Server/middleware/auth.js line 43-44):
`authHeader && authHeader.split(" ")[1]`, with a falsy token treated as
absent by the `if (!apiKey)` check. -/
def bearerToken (authHeader : Option String) : Option String :=
  match authHeader with
  | none => none
  | some h =>
    match (headerParts h).get? 1 with
    | none => none
    | some t => if t == "" then none else some t

/-- Outcome of `authenticateAgent` (Server/middleware/auth.js lines 42-70):
either an early error response, or `next()` with `req.agent` set to the row
as selected (before its `last_seen` refresh) and the database updated. -/
inductive AuthResult where
  | failure (status : Nat) (msg : String)
  | success (agent : AgentRow) (st : ServerState)
  deriving Repr, DecidableEq

/-- Agent authentication middleware (Server/middleware/auth.js lines 42-70):
missing token gives 401, unknown api_key gives 403; on success the matched
agent's `last_seen` is set to `NOW()` and the pre-update row becomes
`req.agent`. -/
def authenticateAgent (st : ServerState) (authHeader : Option String)
    (now : Nat) : AuthResult :=
  match bearerToken authHeader with
  | none => .failure 401 "Agent authentication required"
  | some key =>
    match st.agents.find? (fun r => r.api_key == key) with
    | none => .failure 403 "Invalid agent API key"
    | some row =>
      let agents := st.agents.map (fun r =>
        if r.id == row.id then { r with last_seen := some now } else r)
      .success row { st with agents := agents }

/-- The `data` object of a POST /api/data body: all fields the two branches
of Server/routes/data.js read from it, each possibly absent. -/
structure PushData where
  ip_address : Option String
  serial_number : Option String
  model : Option String
  name : Option String
  timestamp : Option String
  page_count : Option Int
  toner_levels : Option String
  status : Option String
  error_state : Option String
  raw_data : Option String
  deriving Repr, DecidableEq

/-- Body of POST /api/data: `{type, printer_id?, data}`. -/
structure DataBody where
  type : Option String
  printer_id : Option Nat
  data : Option PushData
  deriving Repr, DecidableEq

/-- Response of the data-ingestion endpoint: `{success: true, printer_id?}`
or an error status. -/
inductive DataResponse where
  | ok (printer_id : Option Nat)
  | err (status : Nat) (msg : String)
  deriving Repr, DecidableEq

/-- Server-side rendering of a client timestamp:
`data.timestamp || new Date().toISOString()` (Server/routes/data.js line 38);
the ISO string minted for a falsy client value is abstracted to the printed
clock value. -/
def metricTimestamp (d : PushData) (now : Nat) : String :=
  match d.timestamp with
  | none => toString now
  | some t => if t == "" then toString now else t

/-- The UPDATE of the metrics branch (Server/routes/data.js lines 48-51):
`SET status = data.status || "unknown", last_seen = NOW()`. -/
def refreshPrinterStatus (d : PushData) (now : Nat) (q : PrinterRow) :
    PrinterRow :=
  { q with status := if falsyStr d.status then "unknown"
                     else d.status.getD "unknown",
           last_seen := some now }

/-- The UPDATE of the printer branch (Server/routes/data.js lines 77-85):
`SET serial_number = COALESCE($1, serial_number), model = COALESCE($2,
model), name = COALESCE($3, name), last_seen = NOW()`. -/
def coalescePrinter (d : PushData) (now : Nat) (q : PrinterRow) :
    PrinterRow :=
  { q with serial_number := d.serial_number.or q.serial_number,
           model := d.model.or q.model,
           name := d.name.or q.name,
           last_seen := some now }

/-- Route handler body of POST /api/data (Server/routes/data.js lines 8-110),
run after `authenticateAgent` has succeeded with `req.agent.id = agentId`.
The `metrics` branch checks printer ownership, appends one `metrics` row and
refreshes the printer's status/last_seen; the `printer_discovery` /
`printer_update` branch upserts a printer keyed by (agent_id, ip_address),
COALESCE-merging serial_number, model and name. -/
def dataRoute (st : ServerState) (agentId : Nat) (body : DataBody)
    (now : Nat) : ServerState × DataResponse :=
  match body.type, body.data with
  | some ty, some d =>
    if ty == "" then (st, .err 400 "Invalid data format")
    else if ty == "metrics" then
      match st.printers.find? (fun p =>
          body.printer_id == some p.id && p.agent_id == agentId) with
      | none => (st, .err 404 "Printer not found")
      | some p =>
        let m : MetricRow :=
          { id := st.nextMetricId, printer_id := p.id,
            timestamp := metricTimestamp d now,
            page_count := d.page_count,
            toner_levels := if falsyStr d.toner_levels then none
                            else d.toner_levels,
            status := d.status, error_state := d.error_state,
            raw_data := if falsyStr d.raw_data then none else d.raw_data }
        let printers := st.printers.map (fun q =>
          if q.id == p.id then refreshPrinterStatus d now q else q)
        ({ st with metrics := st.metrics ++ [m], printers := printers,
                   nextMetricId := st.nextMetricId + 1 },
         .ok none)
    else if ty == "printer_discovery" || ty == "printer_update" then
      match d.ip_address with
      | none => (st, .err 400 "Printer IP address is required")
      | some ip =>
        if ip == "" then (st, .err 400 "Printer IP address is required")
        else
          match st.printers.find? (fun p =>
              p.ip_address == ip && p.agent_id == agentId) with
          | some p =>
            let printers := st.printers.map (fun q =>
              if q.id == p.id then coalescePrinter d now q else q)
            ({ st with printers := printers }, .ok (some p.id))
          | none =>
            let p : PrinterRow :=
              { id := st.nextPrinterId, agent_id := agentId,
                ip_address := ip, serial_number := d.serial_number,
                model := d.model, name := d.name, status := "unknown",
                last_seen := some now }
            ({ st with printers := st.printers ++ [p],
                       nextPrinterId := st.nextPrinterId + 1 },
             .ok (some p.id))
    else (st, .err 400 "Unknown data type")
  | _, _ => (st, .err 400 "Invalid data format")

/-- POST /api/data end to end: the `authenticateAgent` middleware followed by
the route handler (Server/routes/data.js line 8). -/
def postData (st : ServerState) (authHeader : Option String) (body : DataBody)
    (now : Nat) : ServerState × DataResponse :=
  match authenticateAgent st authHeader now with
  | .failure code msg => (st, .err code msg)
  | .success agent st1 => dataRoute st1 agent.id body now

/-- A JSON scalar of the config response. -/
inductive ConfigValue where
  | num (n : Nat)
  | str (s : String)
  deriving Repr, DecidableEq

/-- Response of GET /api/data/config: the JSON object as a key-value list,
or an error status. -/
inductive ConfigResponse where
  | ok (fields : List (String × ConfigValue))
  | err (status : Nat) (msg : String)
  deriving Repr, DecidableEq

/-- GET /api/data/config (Server/routes/data.js lines 113-128): behind
`authenticateAgent`, returns the fixed four-field configuration object. -/
def getConfig (st : ServerState) (authHeader : Option String) (now : Nat) :
    ServerState × ConfigResponse :=
  match authenticateAgent st authHeader now with
  | .failure code msg => (st, .err code msg)
  | .success _ st1 =>
    (st1, .ok [("polling_interval", .num 300),
               ("discovery_interval", .num 86400),
               ("snmp_community", .str "public"),
               ("snmp_timeout", .num 2)])

/-- Number of `printers` rows for a given (agent_id, ip_address) key. -/
def countPrintersAt (st : ServerState) (agentId : Nat) (ip : String) : Nat :=
  (st.printers.filter (fun p =>
    p.ip_address == ip && p.agent_id == agentId)).length

/-- Modelled from the spec: a locally stored record of the agent's Local
Store awaiting sync (the agent implementation, Agent/data_collector.py, is
not part of the source tree; only its setup scripts are).  Each record
carries the locally assigned id the SyncCursor is compared against. -/
structure LocalRecord where
  localId : Nat
  payload : String
  deriving Repr, DecidableEq

/-- Modelled from the spec: the Sync Client's view of the Local Store for one
entity kind — the records plus the SyncCursor, the "highest locally-assigned
id pushed so far". -/
structure SyncState where
  cursor : Nat
  records : List LocalRecord
  deriving Repr, DecidableEq

/-- Modelled from the spec: the records the Sync Client classifies as
unsynced: those whose locally assigned id lies beyond the cursor. -/
def unsyncedRecords (s : SyncState) : List LocalRecord :=
  s.records.filter (fun r => s.cursor < r.localId)

/-- Modelled from the spec: the server's reply to a push as the Sync Client
sees it — an HTTP status, or a transport-level failure. -/
inductive ServerReply where
  | httpStatus (status : Nat)
  | netError
  deriving Repr, DecidableEq

/-- A reply acknowledges receipt exactly when it is a 2xx HTTP status. -/
def acknowledged : ServerReply → Bool
  | .httpStatus c => 200 ≤ c && c < 300
  | .netError => false

/-- Modelled from the spec: one push of the currently unsynced batch by the
Sync Client (`pushIdentity`/`pushMetrics`, §4.6).  On acknowledgement the
cursor advances past the batch; on network error or non-2xx status the
state is left untouched. -/
def pushBatch (s : SyncState) (reply : ServerReply) : SyncState :=
  if acknowledged reply then
    { s with cursor :=
        ((unsyncedRecords s).map (fun r => r.localId)).foldr max s.cursor }
  else s

/-- Modelled from the spec: outcome of one SNMP metric probe by the Metric
Poller (§4.3) — a value map, or a timeout/unreachable error. -/
inductive ProbeOutcome where
  | values (page_count : Option Int) (toner_levels : Option String)
           (statusValue : String)
  | timeout
  | unreachable
  deriving Repr, DecidableEq

/-- Modelled from the spec: a MetricSample as written to the agent's Local
Store (§3). -/
structure MetricSample where
  printer_ip : String
  timestamp : Nat
  page_count : Option Int
  toner_levels : Option String
  status : String
  deriving Repr, DecidableEq

/-- Modelled from the spec: the Metric Poller's handling of one printer
(§4.3): on success a sample with the probed values, on timeout/unreachable a
sample with status "offline" and no page/toner fields — never no sample. -/
def pollPrinter (p : PrinterRow) (outcome : ProbeOutcome) (now : Nat) :
    MetricSample :=
  match outcome with
  | .values pc toner stv =>
    { printer_ip := p.ip_address, timestamp := now, page_count := pc,
      toner_levels := toner, status := stv }
  | .timeout =>
    { printer_ip := p.ip_address, timestamp := now, page_count := none,
      toner_levels := none, status := "offline" }
  | .unreachable =>
    { printer_ip := p.ip_address, timestamp := now, page_count := none,
      toner_levels := none, status := "offline" }

/-- Modelled from the spec: one polling cycle over all known printers
(§4.3), probing each and writing exactly one sample per printer. -/
def pollCycle (printers : List PrinterRow)
    (probe : PrinterRow → ProbeOutcome) (now : Nat) : List MetricSample :=
  printers.map (fun p => pollPrinter p (probe p) now)

/-- Empty database with all SERIAL counters at 1. -/
def emptyState : ServerState := ⟨[], [], [], 1, 1, 1⟩

/-- A sample register request. -/
def sampleRegisterReq : RegisterRequest :=
  ⟨some "agent-uuid-1", some "office-agent", some "host1", some "10.0.0.9",
   some "linux", some "1.0"⟩

/-- The stored row of the sample registered agent, api_key "K1". -/
def sampleAgentRow : AgentRow :=
  ⟨1, "agent-uuid-1", "office-agent", none, none, none, none, "K1",
   "active", none⟩

/-- A database holding one registered agent whose api_key is "K1". -/
def oneAgentState : ServerState :=
  ⟨[sampleAgentRow], [], [], 2, 1, 1⟩

/-- A database with one agent (api_key "K1") and one printer it owns. -/
def onePrinterState : ServerState :=
  ⟨[sampleAgentRow],
   [⟨1, 1, "10.0.0.1", some "SN1", none, none, "unknown", some 7⟩],
   [], 2, 2, 1⟩

/-- A sample identity push carrying only ip_address and model. -/
def samplePush : PushData :=
  ⟨some "10.0.0.1", none, some "LaserJet 4", none, none, none, none, none,
   none, none⟩

/-- A sample printer_update body wrapping `samplePush`. -/
def samplePushBody : DataBody := ⟨some "printer_update", none, some samplePush⟩

/-- A sample metrics payload. -/
def sampleMetricsPush : PushData :=
  ⟨none, none, none, none, some "2024-01-01T00:00:00Z", some 42,
   none, some "online", none, none⟩

/-- A sample metrics body for printer 1. -/
def sampleMetricsBody : DataBody :=
  ⟨some "metrics", some 1, some sampleMetricsPush⟩

/-- A sample metrics body naming a printer id that exists under no agent. -/
def sampleForeignMetricsBody : DataBody :=
  ⟨some "metrics", some 99, some sampleMetricsPush⟩

/-- A sample printer row for the spec-modelled poller. -/
def samplePrinterRow : PrinterRow :=
  ⟨1, 1, "10.0.0.1", some "SN1", none, none, "unknown", some 7⟩

/-- A sample Sync Client state: cursor 2, two unsynced records. -/
def sampleSyncState : SyncState := ⟨2, [⟨3, "r3"⟩, ⟨4, "r4"⟩]⟩

/-- A row transformer that preserves a predicate commutes with find?. -/
theorem find?_map_of_pres {α : Type} (g : α → α) (p : α → Bool)
    (hp : ∀ r, p (g r) = p r) :
    ∀ l : List α, (l.map g).find? p = (l.find? p).map g := by
  intro l
  induction l with
  | nil => rfl
  | cons a l ih =>
    simp only [List.map_cons]
    by_cases h : p a
    · rw [List.find?_cons_of_pos _ (by rw [hp a]; exact h),
          List.find?_cons_of_pos _ h]
      rfl
    · rw [List.find?_cons_of_neg _ (by rw [hp a]; simpa using h),
          List.find?_cons_of_neg _ (by simpa using h), ih]

/-- A row transformer that preserves a predicate preserves the filter count. -/
theorem length_filter_map_of_pres {α : Type} (g : α → α) (p : α → Bool)
    (hp : ∀ r, p (g r) = p r) :
    ∀ l : List α, ((l.map g).filter p).length = (l.filter p).length := by
  intro l
  induction l with
  | nil => rfl
  | cons a l ih =>
    simp only [List.map_cons]
    by_cases h : p a
    · rw [List.filter_cons_of_pos (by rw [hp a]; exact h),
          List.filter_cons_of_pos h]
      simpa using ih
    · rw [List.filter_cons_of_neg (by rw [hp a]; simpa using h),
          List.filter_cons_of_neg (by simpa using h), ih]

/-- find? over an append whose first part has no match. -/
theorem find?_append_of_none {α : Type} (p : α → Bool) (l₁ l₂ : List α)
    (h : l₁.find? p = none) : (l₁ ++ l₂).find? p = l₂.find? p := by
  induction l₁ with
  | nil => rfl
  | cons a l ih =>
    by_cases ha : p a
    · rw [List.find?_cons_of_pos _ ha] at h
      cases h
    · rw [List.find?_cons_of_neg _ ha] at h
      rw [List.cons_append, List.find?_cons_of_neg _ ha, ih h]

/-- After a successful registration naming agent_id `aid`, the agents table
holds a row for `aid` whose api_key is the returned token. -/
theorem register_ok_stores_key (st : ServerState) (req : RegisterRequest)
    (k : String) (n : Nat) (st1 : ServerState) (t : String) (aid : String)
    (haid : req.agent_id = some aid)
    (h : registerAgent st req k n = (st1, .ok t)) :
    ∃ r, st1.agents.find? (fun q => q.agent_id == aid) = some r ∧
      r.api_key = t := by
  obtain ⟨qa, qn, qh, qip, qos, qv⟩ := req
  simp only at haid
  subst haid
  cases qn with
  | none => simp [registerAgent] at h
  | some nm =>
    simp only [registerAgent] at h
    split at h
    · simp at h
    · rename_i hz
      split at h
      · rename_i row hfind
        simp only [Prod.mk.injEq, RegisterResponse.ok.injEq] at h
        obtain ⟨hst, ht⟩ := h
        subst hst
        subst ht
        have hrow : (row.agent_id == aid) = true := by
          have hx := List.find?_some hfind
          simpa using hx
        refine ⟨{ row with
                  name := nm
                  hostname := qh
                  ip_address := qip
                  os_info := qos
                  version := qv
                  last_seen := some n
                  status := "active" }, ?_, rfl⟩
        show (st.agents.map _).find? _ = _
        rw [find?_map_of_pres _ _ ?_ st.agents, hfind]
        · have heq2 : row.agent_id = aid := by simpa using hrow
          simp [heq2]
        · intro r
          by_cases hr : r.agent_id == aid <;> simp [hr]
      · rename_i hfind
        simp only [Prod.mk.injEq, RegisterResponse.ok.injEq] at h
        obtain ⟨hst, ht⟩ := h
        subst hst
        subst ht
        refine ⟨{ id := st.nextAgentRowId
                  agent_id := aid
                  name := nm
                  hostname := qh
                  ip_address := qip
                  os_info := qos
                  version := qv
                  api_key := k
                  status := "active"
                  last_seen := none }, ?_, rfl⟩
        show (st.agents ++ [_]).find? _ = _
        rw [find?_append_of_none _ _ _ hfind,
            List.find?_cons_of_pos _ (by simp)]

/-- Registering an agent_id that already has a row returns that row's stored
api_key and inserts no row. -/
theorem register_existing_returns_key (st : ServerState)
    (req : RegisterRequest) (k : String) (n : Nat) (st1 : ServerState)
    (t : String) (aid : String) (r : AgentRow)
    (haid : req.agent_id = some aid)
    (hfind : st.agents.find? (fun q => q.agent_id == aid) = some r)
    (h : registerAgent st req k n = (st1, .ok t)) :
    t = r.api_key ∧ st1.agents.length = st.agents.length := by
  obtain ⟨qa, qn, qh, qip, qos, qv⟩ := req
  simp only at haid
  subst haid
  cases qn with
  | none => simp [registerAgent] at h
  | some nm =>
    simp only [registerAgent] at h
    split at h
    · simp at h
    · split at h
      · rename_i row hfind2
        rw [hfind] at hfind2
        obtain rfl : r = row := by
          injection hfind2 with hval
        simp only [Prod.mk.injEq, RegisterResponse.ok.injEq] at h
        obtain ⟨hst, ht⟩ := h
        subst hst
        exact ⟨ht.symm, by simp⟩
      · rename_i hfind2
        rw [hfind] at hfind2
        cases hfind2

/-- C1: registration is idempotent in the api_key — if a register request
for an agent_id succeeds and a later register request for the same agent_id
also succeeds, both responses carry the same api_key token, and the second
registration adds no agent row. -/
theorem register_idempotent_in_api_key
    (st : ServerState) (req1 req2 : RegisterRequest) (k1 k2 : String)
    (n1 n2 : Nat) (st1 st2 : ServerState) (t1 t2 : String) (aid : String)
    (ha1 : req1.agent_id = some aid) (ha2 : req2.agent_id = some aid)
    (h1 : registerAgent st req1 k1 n1 = (st1, .ok t1))
    (h2 : registerAgent st1 req2 k2 n2 = (st2, .ok t2)) :
    t1 = t2 ∧ st2.agents.length = st1.agents.length := by
  obtain ⟨r, hfind, hkey⟩ :=
    register_ok_stores_key st req1 k1 n1 st1 t1 aid ha1 h1
  obtain ⟨ht2, hlen⟩ :=
    register_existing_returns_key st1 req2 k2 n2 st2 t2 aid r ha2 hfind h2
  exact ⟨(ht2.trans hkey).symm, hlen⟩

/-- Witness for C1: registering the sample request twice against the empty
database yields token "K1" both times and a single agent row. -/
theorem register_idempotent_in_api_key_witness :
    "K1" = "K1" ∧
    (registerAgent (registerAgent emptyState sampleRegisterReq "K1" 5).1
        sampleRegisterReq "K2" 9).1.agents.length =
      (registerAgent emptyState sampleRegisterReq "K1" 5).1.agents.length :=
  register_idempotent_in_api_key emptyState sampleRegisterReq sampleRegisterReq
    "K1" "K2" 5 9 (registerAgent emptyState sampleRegisterReq "K1" 5).1
    (registerAgent (registerAgent emptyState sampleRegisterReq "K1" 5).1
      sampleRegisterReq "K2" 9).1 "K1" "K1" "agent-uuid-1" rfl rfl rfl rfl

/-- C2: a printer_discovery/printer_update push never loses known identity
fields — every existing printer row survives with the same id and
ip_address, with serial_number, model and name still non-null whenever they
were non-null before the push, and unchanged whenever the push supplies no
value for them. -/
theorem coalesce_update_preserves_known_fields
    (st : ServerState) (agentId : Nat) (bpid : Option Nat) (now : Nat)
    (d : PushData) (ty : String)
    (hty : ty = "printer_discovery" ∨ ty = "printer_update")
    (p : PrinterRow) (hp : p ∈ st.printers) :
    ∃ p1, p1 ∈ (dataRoute st agentId ⟨some ty, bpid, some d⟩ now).1.printers ∧
      p1.id = p.id ∧ p1.ip_address = p.ip_address ∧
      (p.serial_number.isSome → p1.serial_number.isSome) ∧
      (d.serial_number = none → p1.serial_number = p.serial_number) ∧
      (p.model.isSome → p1.model.isSome) ∧
      (d.model = none → p1.model = p.model) ∧
      (p.name.isSome → p1.name.isSome) ∧
      (d.name = none → p1.name = p.name) := by
  have h1 : (ty == "") = false := by rcases hty with rfl | rfl <;> rfl
  have h2 : (ty == "metrics") = false := by rcases hty with rfl | rfl <;> rfl
  have h3 : (ty == "printer_discovery" || ty == "printer_update") = true := by
    rcases hty with rfl | rfl <;> rfl
  cases hip : d.ip_address with
  | none =>
    refine ⟨p, ?_, rfl, rfl, fun h => h, fun _ => rfl, fun h => h,
            fun _ => rfl, fun h => h, fun _ => rfl⟩
    simpa [dataRoute, h1, h2, h3, hip] using hp
  | some ip =>
    by_cases hipz : (ip == "") = true
    · refine ⟨p, ?_, rfl, rfl, fun h => h, fun _ => rfl, fun h => h,
              fun _ => rfl, fun h => h, fun _ => rfl⟩
      simpa [dataRoute, h1, h2, h3, hip, hipz] using hp
    · cases hfind : st.printers.find? (fun q =>
          q.ip_address == ip && q.agent_id == agentId) with
      | none =>
        refine ⟨p, ?_, rfl, rfl, fun h => h, fun _ => rfl, fun h => h,
                fun _ => rfl, fun h => h, fun _ => rfl⟩
        simp [dataRoute, h1, h2, h3, hip, hipz, hfind]
        exact Or.inl hp
      | some q =>
        refine ⟨if (p.id == q.id) = true then coalescePrinter d now p else p,
                ?_, ?_, ?_, ?_, ?_, ?_, ?_, ?_, ?_⟩
        · simp only [dataRoute, h1, h2, h3, hip, hipz, hfind]
          simp only [Bool.false_eq_true, if_false]
          exact List.mem_map_of_mem _ hp
        · by_cases hid : (p.id == q.id) = true <;>
            simp [hid, coalescePrinter]
        · by_cases hid : (p.id == q.id) = true <;>
            simp [hid, coalescePrinter]
        · by_cases hid : (p.id == q.id) = true
          · simp only [hid, if_true, coalescePrinter]
            cases d.serial_number <;> simp [Option.or]
          · simp [hid]
        · intro hnone
          by_cases hid : (p.id == q.id) = true <;>
            simp [hid, coalescePrinter, hnone, Option.or]
        · by_cases hid : (p.id == q.id) = true
          · simp only [hid, if_true, coalescePrinter]
            cases d.model <;> simp [Option.or]
          · simp [hid]
        · intro hnone
          by_cases hid : (p.id == q.id) = true <;>
            simp [hid, coalescePrinter, hnone, Option.or]
        · by_cases hid : (p.id == q.id) = true
          · simp only [hid, if_true, coalescePrinter]
            cases d.name <;> simp [Option.or]
          · simp [hid]
        · intro hnone
          by_cases hid : (p.id == q.id) = true <;>
            simp [hid, coalescePrinter, hnone, Option.or]

/-- Witness for C2: applying the coalesce theorem to the one-printer
database with a push that supplies only a model. -/
theorem coalesce_update_preserves_known_fields_witness :
    ∃ p1, p1 ∈ (dataRoute onePrinterState 1
        ⟨some "printer_update", none, some samplePush⟩ 8).1.printers ∧
      p1.id = samplePrinterRow.id ∧
      p1.ip_address = samplePrinterRow.ip_address ∧
      (samplePrinterRow.serial_number.isSome → p1.serial_number.isSome) ∧
      (samplePush.serial_number = none →
        p1.serial_number = samplePrinterRow.serial_number) ∧
      (samplePrinterRow.model.isSome → p1.model.isSome) ∧
      (samplePush.model = none → p1.model = samplePrinterRow.model) ∧
      (samplePrinterRow.name.isSome → p1.name.isSome) ∧
      (samplePush.name = none → p1.name = samplePrinterRow.name) :=
  coalesce_update_preserves_known_fields onePrinterState 1 none 8 samplePush
    "printer_update" (Or.inr rfl) samplePrinterRow (by decide)

/-- A list with no match for a predicate filters to the empty list. -/
theorem filter_eq_nil_of_find?_none {α : Type} (p : α → Bool) (l : List α)
    (h : l.find? p = none) : l.filter p = [] := by
  induction l with
  | nil => rfl
  | cons a l ih =>
    by_cases ha : p a
    · rw [List.find?_cons_of_pos _ ha] at h
      cases h
    · rw [List.find?_cons_of_neg _ ha] at h
      rw [List.filter_cons_of_neg (by simpa using ha)]
      exact ih h

/-- A found match gives the filtered list at least one element. -/
theorem one_le_length_filter_of_find?_some {α : Type} (p : α → Bool)
    (l : List α) (a : α) (h : l.find? p = some a) :
    1 ≤ (l.filter p).length := by
  have hmem : a ∈ l := List.mem_of_find?_eq_some h
  have hpa : p a = true := List.find?_some h
  exact List.length_pos_of_mem (List.mem_filter.mpr ⟨hmem, hpa⟩)

/-- When a printer row for (agentId, ip) exists, a printer push takes the
UPDATE branch: the push keeps the (agent, ip) row count and the table length
unchanged, and the key is still found afterwards. -/
theorem dataRoute_update_branch (st : ServerState) (agentId : Nat)
    (bpid : Option Nat) (now : Nat) (d : PushData) (ty : String) (ip : String)
    (h1 : (ty == "") = false) (h2 : (ty == "metrics") = false)
    (h3 : (ty == "printer_discovery" || ty == "printer_update") = true)
    (hip : d.ip_address = some ip) (hipz : (ip == "") = false)
    (q : PrinterRow)
    (hfind : st.printers.find? (fun r =>
      r.ip_address == ip && r.agent_id == agentId) = some q) :
    countPrintersAt (dataRoute st agentId ⟨some ty, bpid, some d⟩ now).1
        agentId ip = countPrintersAt st agentId ip ∧
    (dataRoute st agentId ⟨some ty, bpid, some d⟩ now).1.printers.length =
        st.printers.length ∧
    ∃ q1, (dataRoute st agentId ⟨some ty, bpid, some d⟩ now).1.printers.find?
        (fun r => r.ip_address == ip && r.agent_id == agentId) = some q1 := by
  have hpres : ∀ r : PrinterRow,
      ((fun s => s.ip_address == ip && s.agent_id == agentId)
        ((fun r => if (r.id == q.id) = true then coalescePrinter d now r
          else r) r)) =
      ((fun s => s.ip_address == ip && s.agent_id == agentId) r) := by
    intro r
    by_cases hr : (r.id == q.id) = true <;> simp [hr, coalescePrinter]
  have hprn : (dataRoute st agentId ⟨some ty, bpid, some d⟩ now).1.printers =
      st.printers.map (fun r =>
        if (r.id == q.id) = true then coalescePrinter d now r else r) := by
    simp [dataRoute, h1, h2, h3, hip, hipz, hfind]
  refine ⟨?_, ?_, ?_⟩
  · simp only [countPrintersAt, hprn]
    exact length_filter_map_of_pres _ _ hpres _
  · simp [hprn]
  · refine ⟨(fun r => if (r.id == q.id) = true then coalescePrinter d now r
      else r) q, ?_⟩
    rw [hprn, find?_map_of_pres _ _ hpres, hfind]
    rfl

/-- C3: printer pushes are upserts keyed by (agent, ip_address) — under the
UNIQUE(agent_id, ip_address) table constraint (at most one row per key),
delivering the same printer_discovery/printer_update push twice leaves
exactly one printer row for the key, and the second delivery inserts no
row. -/
theorem printer_push_upsert_no_duplicate
    (st : ServerState) (agentId : Nat) (bpid : Option Nat) (n1 n2 : Nat)
    (d : PushData) (ty : String) (ip : String)
    (hty : ty = "printer_discovery" ∨ ty = "printer_update")
    (hip : d.ip_address = some ip) (hipz : (ip == "") = false)
    (hwf : countPrintersAt st agentId ip ≤ 1) :
    countPrintersAt
        (dataRoute st agentId ⟨some ty, bpid, some d⟩ n1).1 agentId ip = 1 ∧
    countPrintersAt
        (dataRoute (dataRoute st agentId ⟨some ty, bpid, some d⟩ n1).1
          agentId ⟨some ty, bpid, some d⟩ n2).1 agentId ip = 1 ∧
    (dataRoute (dataRoute st agentId ⟨some ty, bpid, some d⟩ n1).1
        agentId ⟨some ty, bpid, some d⟩ n2).1.printers.length =
      (dataRoute st agentId ⟨some ty, bpid, some d⟩ n1).1.printers.length := by
  have h1 : (ty == "") = false := by rcases hty with rfl | rfl <;> rfl
  have h2 : (ty == "metrics") = false := by rcases hty with rfl | rfl <;> rfl
  have h3 : (ty == "printer_discovery" || ty == "printer_update") = true := by
    rcases hty with rfl | rfl <;> rfl
  cases hfind : st.printers.find? (fun q =>
      q.ip_address == ip && q.agent_id == agentId) with
  | none =>
    have hnil : st.printers.filter (fun q =>
        q.ip_address == ip && q.agent_id == agentId) = [] :=
      filter_eq_nil_of_find?_none _ _ hfind
    have hst1 : (dataRoute st agentId ⟨some ty, bpid, some d⟩ n1).1.printers =
        st.printers ++ [⟨st.nextPrinterId, agentId, ip, d.serial_number,
                         d.model, d.name, "unknown", some n1⟩] := by
      simp [dataRoute, h1, h2, h3, hip, hipz, hfind]
    have hcount1 : countPrintersAt
        (dataRoute st agentId ⟨some ty, bpid, some d⟩ n1).1 agentId ip = 1 := by
      simp [countPrintersAt, hst1, List.filter_append, hnil]
    have hfind1 : (dataRoute st agentId
        ⟨some ty, bpid, some d⟩ n1).1.printers.find? (fun q =>
          q.ip_address == ip && q.agent_id == agentId) =
        some ⟨st.nextPrinterId, agentId, ip, d.serial_number,
              d.model, d.name, "unknown", some n1⟩ := by
      rw [hst1, find?_append_of_none _ _ _ hfind,
          List.find?_cons_of_pos _ (by simp)]
    obtain ⟨hc2, hl2, -⟩ :=
      dataRoute_update_branch
        (dataRoute st agentId ⟨some ty, bpid, some d⟩ n1).1 agentId bpid n2 d
        ty ip h1 h2 h3 hip hipz _ hfind1
    exact ⟨hcount1, hc2.trans hcount1, hl2⟩
  | some q =>
    have hone : countPrintersAt st agentId ip = 1 :=
      Nat.le_antisymm hwf (one_le_length_filter_of_find?_some _ _ _ hfind)
    obtain ⟨hc1, hl1, q1, hfind1⟩ :=
      dataRoute_update_branch st agentId bpid n1 d ty ip h1 h2 h3 hip hipz
        q hfind
    obtain ⟨hc2, hl2, -⟩ :=
      dataRoute_update_branch
        (dataRoute st agentId ⟨some ty, bpid, some d⟩ n1).1 agentId bpid n2 d
        ty ip h1 h2 h3 hip hipz q1 hfind1
    exact ⟨hc1.trans hone, hc2.trans (hc1.trans hone), hl2⟩

/-- Witness for C3: delivering the sample printer_update push twice to the
empty database keeps exactly one row for (agent 1, 10.0.0.1). -/
theorem printer_push_upsert_no_duplicate_witness :
    countPrintersAt
        (dataRoute emptyState 1
          ⟨some "printer_update", none, some samplePush⟩ 7).1 1 "10.0.0.1" = 1 ∧
    countPrintersAt
        (dataRoute (dataRoute emptyState 1
            ⟨some "printer_update", none, some samplePush⟩ 7).1 1
          ⟨some "printer_update", none, some samplePush⟩ 8).1 1 "10.0.0.1" = 1 ∧
    (dataRoute (dataRoute emptyState 1
        ⟨some "printer_update", none, some samplePush⟩ 7).1 1
      ⟨some "printer_update", none, some samplePush⟩ 8).1.printers.length =
      (dataRoute emptyState 1
        ⟨some "printer_update", none, some samplePush⟩ 7).1.printers.length :=
  printer_push_upsert_no_duplicate emptyState 1 none 7 8 samplePush
    "printer_update" "10.0.0.1" (Or.inr rfl) rfl rfl (by decide)

/-- A successful authentication only rewrites the agents table: printers,
metrics and the SERIAL counters are untouched. -/
theorem authenticateAgent_success_frame (st : ServerState)
    (h : Option String) (now : Nat) (agent : AgentRow) (st1 : ServerState)
    (hs : authenticateAgent st h now = .success agent st1) :
    st1.printers = st.printers ∧ st1.metrics = st.metrics ∧
    st1.nextPrinterId = st.nextPrinterId ∧
    st1.nextMetricId = st.nextMetricId := by
  unfold authenticateAgent at hs
  split at hs
  · cases hs
  · split at hs
    · cases hs
    · injection hs with h1 h2
      subst h2
      exact ⟨rfl, rfl, rfl, rfl⟩

/-- Every branch of the data route appends at most one metrics row, and the
successful metrics branch appends exactly one. -/
theorem dataRoute_metrics_append (st : ServerState) (a : Nat)
    (bty : Option String) (bpid : Option Nat) (bdata : Option PushData)
    (now : Nat) :
    ∃ tail : List MetricRow, tail.length ≤ 1 ∧
      (dataRoute st a ⟨bty, bpid, bdata⟩ now).1.metrics = st.metrics ++ tail ∧
      ((bty = some "metrics" ∧
        ∃ pid, (dataRoute st a ⟨bty, bpid, bdata⟩ now).2 = .ok pid) →
        tail.length = 1) := by
  cases bty with
  | none =>
    refine ⟨[], by simp, by simp [dataRoute], ?_⟩
    rintro ⟨hm, -⟩
    cases hm
  | some ty =>
    cases bdata with
    | none =>
      refine ⟨[], by simp, by simp [dataRoute], ?_⟩
      rintro ⟨-, pid, hok⟩
      simp [dataRoute] at hok
    | some d =>
      by_cases htz : (ty == "") = true
      · refine ⟨[], by simp, by simp [dataRoute, htz], ?_⟩
        rintro ⟨-, pid, hok⟩
        simp [dataRoute, htz] at hok
      · by_cases htm : (ty == "metrics") = true
        · cases hfind : st.printers.find? (fun p =>
              bpid == some p.id && p.agent_id == a) with
          | none =>
            refine ⟨[], by simp, by simp [dataRoute, htz, htm, hfind], ?_⟩
            rintro ⟨-, pid, hok⟩
            simp [dataRoute, htz, htm, hfind] at hok
          | some p =>
            refine ⟨[{ id := st.nextMetricId
                       printer_id := p.id
                       timestamp := metricTimestamp d now
                       page_count := d.page_count
                       toner_levels := if falsyStr d.toner_levels then none
                                       else d.toner_levels
                       status := d.status
                       error_state := d.error_state
                       raw_data := if falsyStr d.raw_data then none
                                   else d.raw_data }],
                    by simp, ?_, fun _ => rfl⟩
            simp [dataRoute, htz, htm, hfind]
        · by_cases hpd :
              (ty == "printer_discovery" || ty == "printer_update") = true
          · have hm : (dataRoute st a
                ⟨some ty, bpid, some d⟩ now).1.metrics = st.metrics := by
              cases hip : d.ip_address with
              | none => simp [dataRoute, htz, htm, hpd, hip]
              | some ip =>
                by_cases hipz : (ip == "") = true
                · simp [dataRoute, htz, htm, hpd, hip, hipz]
                · cases hfind : st.printers.find? (fun q =>
                      q.ip_address == ip && q.agent_id == a) with
                  | none =>
                    simp [dataRoute, htz, htm, hpd, hip, hipz, hfind]
                  | some q =>
                    simp [dataRoute, htz, htm, hpd, hip, hipz, hfind]
            refine ⟨[], by simp, by simp [hm], ?_⟩
            rintro ⟨hmty, -⟩
            obtain rfl : ty = "metrics" := Option.some.inj hmty
            simp at htm
          · refine ⟨[], by simp, by simp [dataRoute, htz, htm, hpd], ?_⟩
            rintro ⟨-, pid, hok⟩
            simp [dataRoute, htz, htm, hpd] at hok

/-- C5: metric samples are immutable and append-only — every POST /data
request leaves the previously stored metrics history intact as a prefix,
extends it by at most one row, and a successfully processed metrics push
appends exactly one row. -/
theorem metrics_history_append_only
    (st : ServerState) (h : Option String) (bty : Option String)
    (bpid : Option Nat) (bdata : Option PushData) (now : Nat) :
    ∃ tail : List MetricRow, tail.length ≤ 1 ∧
      (postData st h ⟨bty, bpid, bdata⟩ now).1.metrics = st.metrics ++ tail ∧
      ((bty = some "metrics" ∧
        ∃ pid, (postData st h ⟨bty, bpid, bdata⟩ now).2 = .ok pid) →
        tail.length = 1) := by
  cases hauth : authenticateAgent st h now with
  | failure c m =>
    refine ⟨[], by simp, ?_, ?_⟩
    · simp [postData, hauth]
    · rintro ⟨-, pid, hok⟩
      simp [postData, hauth] at hok
  | success agent st1 =>
    obtain ⟨-, hmet, -, -⟩ :=
      authenticateAgent_success_frame st h now agent st1 hauth
    obtain ⟨tail, hlen, heq, himp⟩ :=
      dataRoute_metrics_append st1 agent.id bty bpid bdata now
    refine ⟨tail, hlen, ?_, ?_⟩
    · rw [show (postData st h ⟨bty, bpid, bdata⟩ now).1 =
          (dataRoute st1 agent.id ⟨bty, bpid, bdata⟩ now).1 from by
        simp [postData, hauth]]
      rw [heq, hmet]
    · rintro ⟨hmty, pid, hok⟩
      refine himp ⟨hmty, pid, ?_⟩
      rw [← hok]
      simp [postData, hauth]

/-- Witness for C5: the append-only theorem applied to a concrete metrics
push against the one-printer database. -/
theorem metrics_history_append_only_witness :
    ∃ tail : List MetricRow, tail.length ≤ 1 ∧
      (postData onePrinterState (some "Bearer K1")
        ⟨some "metrics", some 1, some sampleMetricsPush⟩ 9).1.metrics =
        onePrinterState.metrics ++ tail ∧
      ((some "metrics" = some "metrics" ∧
        ∃ pid, (postData onePrinterState (some "Bearer K1")
          ⟨some "metrics", some 1, some sampleMetricsPush⟩ 9).2 = .ok pid) →
        tail.length = 1) :=
  metrics_history_append_only onePrinterState (some "Bearer K1")
    (some "metrics") (some 1) (some sampleMetricsPush) 9

/-- C8: data ingestion requires a valid bearer token — a POST /data request
with no token in the Authorization header is rejected with 401, a request
whose token matches no stored agent api_key is rejected with 403, and in
both cases the database, printers and metrics included, is returned exactly
as it was. -/
theorem data_ingestion_requires_valid_token
    (st : ServerState) (h : Option String) (body : DataBody) (now : Nat) :
    (bearerToken h = none →
      postData st h body now =
        (st, .err 401 "Agent authentication required")) ∧
    (∀ k, bearerToken h = some k →
      st.agents.find? (fun r => r.api_key == k) = none →
      postData st h body now = (st, .err 403 "Invalid agent API key")) := by
  constructor
  · intro hb
    simp [postData, authenticateAgent, hb]
  · intro k hb hf
    simp [postData, authenticateAgent, hb, hf]

/-- Witness for C8: a push with no Authorization header gets 401, one with
an unknown key gets 403, both leaving the one-agent database unchanged. -/
theorem data_ingestion_requires_valid_token_witness :
    postData oneAgentState none samplePushBody 5 =
      (oneAgentState, .err 401 "Agent authentication required") ∧
    postData oneAgentState (some "Bearer BAD") samplePushBody 5 =
      (oneAgentState, .err 403 "Invalid agent API key") :=
  ⟨(data_ingestion_requires_valid_token oneAgentState none
      samplePushBody 5).1 rfl,
   (data_ingestion_requires_valid_token oneAgentState (some "Bearer BAD")
      samplePushBody 5).2 "BAD" (by decide) (by decide)⟩

/-- C9: agent authentication mutates server state even on reads — with a
valid api_key the matched agent's last_seen is set to the current time while
every other column, row and table is untouched; and the read-only GET
/data/config leaves the database in exactly that authenticated state. -/
theorem auth_updates_last_seen_only
    (st : ServerState) (h : Option String) (now : Nat) (key : String)
    (row : AgentRow)
    (hb : bearerToken h = some key)
    (hfind : st.agents.find? (fun r => r.api_key == key) = some row) :
    authenticateAgent st h now = .success row
      { st with agents := st.agents.map (fun r =>
          if r.id == row.id then { r with last_seen := some now }
          else r) } ∧
    (getConfig st h now).1 =
      { st with agents := st.agents.map (fun r =>
          if r.id == row.id then { r with last_seen := some now }
          else r) } := by
  constructor
  · simp [authenticateAgent, hb, hfind]
  · simp [getConfig, authenticateAgent, hb, hfind]

/-- Witness for C9: authenticating with "Bearer K1" against the one-agent
database refreshes exactly that agent's last_seen, also through GET
/data/config. -/
theorem auth_updates_last_seen_only_witness :
    authenticateAgent oneAgentState (some "Bearer K1") 7 =
      .success sampleAgentRow
        { oneAgentState with agents := oneAgentState.agents.map (fun r =>
            if r.id == sampleAgentRow.id then { r with last_seen := some 7 }
            else r) } ∧
    (getConfig oneAgentState (some "Bearer K1") 7).1 =
      { oneAgentState with agents := oneAgentState.agents.map (fun r =>
          if r.id == sampleAgentRow.id then { r with last_seen := some 7 }
          else r) } :=
  auth_updates_last_seen_only oneAgentState (some "Bearer K1") 7 "K1"
    sampleAgentRow (by decide) (by decide)

/-- C7: GET /data/config with a valid agent api_key answers with the full
configuration object carrying all four of polling_interval,
discovery_interval, snmp_community and snmp_timeout. -/
theorem config_pull_complete
    (st : ServerState) (h : Option String) (now : Nat) (key : String)
    (row : AgentRow)
    (hb : bearerToken h = some key)
    (hfind : st.agents.find? (fun r => r.api_key == key) = some row) :
    ∃ fields, (getConfig st h now).2 = .ok fields ∧
      "polling_interval" ∈ fields.map Prod.fst ∧
      "discovery_interval" ∈ fields.map Prod.fst ∧
      "snmp_community" ∈ fields.map Prod.fst ∧
      "snmp_timeout" ∈ fields.map Prod.fst := by
  refine ⟨[("polling_interval", .num 300), ("discovery_interval", .num 86400),
           ("snmp_community", .str "public"), ("snmp_timeout", .num 2)],
          ?_, by simp, by simp, by simp, by simp⟩
  simp [getConfig, authenticateAgent, hb, hfind]

/-- Witness for C7: the config pulled with "Bearer K1" from the one-agent
database carries all four fields. -/
theorem config_pull_complete_witness :
    ∃ fields, (getConfig oneAgentState (some "Bearer K1") 7).2 = .ok fields ∧
      "polling_interval" ∈ fields.map Prod.fst ∧
      "discovery_interval" ∈ fields.map Prod.fst ∧
      "snmp_community" ∈ fields.map Prod.fst ∧
      "snmp_timeout" ∈ fields.map Prod.fst :=
  config_pull_complete oneAgentState (some "Bearer K1") 7 "K1"
    sampleAgentRow (by decide) (by decide)

/-- C10: a metrics push naming a printer id the authenticated agent does
not own — including a printer of another agent — is answered 404 "Printer
not found" by the route handler, which inserts no metrics row and updates
no printer record. -/
theorem metrics_push_foreign_printer_rejected
    (st : ServerState) (a : Nat) (bpid : Option Nat) (d : PushData)
    (now : Nat)
    (hno : ∀ p ∈ st.printers, ¬(bpid = some p.id ∧ p.agent_id = a)) :
    dataRoute st a ⟨some "metrics", bpid, some d⟩ now =
      (st, .err 404 "Printer not found") := by
  have hfind : st.printers.find? (fun p =>
      bpid == some p.id && p.agent_id == a) = none := by
    rw [List.find?_eq_none]
    intro p hp
    have hq := hno p hp
    simp only [Bool.and_eq_true, beq_iff_eq]
    tauto
  simp [dataRoute, hfind]

/-- Witness for C10: pushing metrics for printer id 99 — owned by nobody —
as agent 1 is rejected 404 and leaves the one-printer database unchanged. -/
theorem metrics_push_foreign_printer_rejected_witness :
    dataRoute onePrinterState 1
        ⟨some "metrics", some 99, some sampleMetricsPush⟩ 9 =
      (onePrinterState, .err 404 "Printer not found") :=
  metrics_push_foreign_printer_rejected onePrinterState 1 (some 99)
    sampleMetricsPush 9 (by decide)

/-- C4: at-least-once sync delivery (spec-modelled Sync Client) — on a
network error or any non-2xx reply the push leaves the Sync Client state,
its cursor and its records untouched, every record of the failed batch is
still classified unsynced, and it is resubmitted on the next cycle. -/
theorem sync_at_least_once (s : SyncState) (reply : ServerReply)
    (hfail : acknowledged reply = false) :
    pushBatch s reply = s ∧
    unsyncedRecords (pushBatch s reply) = unsyncedRecords s ∧
    ∀ r ∈ unsyncedRecords s, r ∈ unsyncedRecords (pushBatch s reply) := by
  have h : pushBatch s reply = s := by simp [pushBatch, hfail]
  refine ⟨h, by rw [h], ?_⟩
  intro r hr
  rw [h]
  exact hr

/-- Witness for C4: a transport error on the sample sync state changes
nothing and keeps both records unsynced. -/
theorem sync_at_least_once_witness :
    pushBatch sampleSyncState .netError = sampleSyncState ∧
    unsyncedRecords (pushBatch sampleSyncState .netError) =
      unsyncedRecords sampleSyncState ∧
    ∀ r ∈ unsyncedRecords sampleSyncState,
      r ∈ unsyncedRecords (pushBatch sampleSyncState .netError) :=
  sync_at_least_once sampleSyncState .netError rfl

/-- C6: offline polls are recorded, not dropped (spec-modelled Metric
Poller) — a polling cycle yields exactly one sample per known printer, and
a printer whose probe times out or is unreachable is recorded with status
"offline" and absent page_count and toner_levels. -/
theorem offline_poll_recorded (printers : List PrinterRow)
    (probe : PrinterRow → ProbeOutcome) (now : Nat) :
    (pollCycle printers probe now).length = printers.length ∧
    ∀ p ∈ printers, (probe p = .timeout ∨ probe p = .unreachable) →
      pollPrinter p (probe p) now ∈ pollCycle printers probe now ∧
      (pollPrinter p (probe p) now).status = "offline" ∧
      (pollPrinter p (probe p) now).page_count = none ∧
      (pollPrinter p (probe p) now).toner_levels = none := by
  refine ⟨by simp [pollCycle], ?_⟩
  intro p hp hout
  refine ⟨List.mem_map_of_mem _ hp, ?_, ?_, ?_⟩ <;>
    rcases hout with h | h <;> simp [pollPrinter, h]

/-- Witness for C6: polling the sample printer while it times out records
one "offline" sample with no page or toner data. -/
theorem offline_poll_recorded_witness :
    (pollCycle [samplePrinterRow] (fun _ => .timeout) 9).length = 1 ∧
    (pollPrinter samplePrinterRow .timeout 9 ∈
        pollCycle [samplePrinterRow] (fun _ => .timeout) 9 ∧
      (pollPrinter samplePrinterRow .timeout 9).status = "offline" ∧
      (pollPrinter samplePrinterRow .timeout 9).page_count = none ∧
      (pollPrinter samplePrinterRow .timeout 9).toner_levels = none) :=
  ⟨(offline_poll_recorded [samplePrinterRow] (fun _ => .timeout) 9).1,
   (offline_poll_recorded [samplePrinterRow] (fun _ => .timeout) 9).2
     samplePrinterRow (by simp) (Or.inl rfl)⟩

end PrinterSNMP
